import Mathlib

/-!
Shallow embedding of `src/main/signers/ledger/adapter.ts` (class
`LedgerSignerAdapter`).

Modelling decisions, in order of appearance in the source:

* JavaScript arrays become `List`s kept in source order: `push` appends at the
  end, `pop` removes the last element, `findIndex` returns the first matching
  index (or `-1`), `splice(i, 1)` removes one element where a negative `i`
  counts from the end (so `splice(-1, 1)` on a non-empty array deletes the
  last element and on an empty array deletes nothing).
* The `Ledger` class itself lives outside this file's source; the adapter only
  reads/writes the fields `id`, `devicePath`, `model`, `derivation` and
  `accountLimit` and calls `open`/`connect`/`disconnect`/`close`/
  `deriveAddresses`.  Those calls are recorded in an event log together with
  the adapter's own `add`/`remove`/`update` emissions.  Modelled from the
  spec: a handle's `id` is a stable identifier assigned once at construction
  (we draw it from a monotone counter), and `close()` makes the handle emit
  its `close` signal, which the adapter's handler turns into a `remove`
  emission.
* Object identity (JavaScript reference equality, used by `indexOf`) is
  modelled by the handle `id`, which the development proves unique.
* `setTimeout`/`clearTimeout`: every timer ever created is kept in `timers`
  with the data its callback captured (the resolved handle's path and id at
  detach time; neither field is ever mutated by the adapter, so capturing the
  values is faithful).  A timer may fire only if its id was never passed to
  `clearTimeout` and it has not fired yet; `cancelled` and `fired` record
  this.  The live JS array `this.disconnections` is modelled separately and
  exactly, including its `push`/`pop`/`findIndex`/`splice` manipulations.
* `store('main.ledger.derivation')` and `store('main.ledger.liveAccountLimit')`
  are the two configuration reads; a `Store` value is passed to each handler
  as the snapshot the handler would read.
-/

namespace Frame

/-- Derivation schemes (the `Derivation` enum from `../Signer/derive`,
external to the adapter file).  The adapter compares `ledger.derivation`
against the string literal of the live scheme, which is the value of
`Derivation.live`. -/
inductive Derivation where
  | live
  | legacy
  | standard
  | testnet
deriving DecidableEq, Repr

/-- Snapshot of the two store keys the adapter reads:
`main.ledger.derivation` and `main.ledger.liveAccountLimit`. -/
structure Store where
  derivation : Derivation
  liveAccountLimit : Nat
deriving DecidableEq, Repr

/-- The adapter's view of a `Ledger` signer handle: the fields the adapter
reads or writes.  `id` is modelled from the spec as a stable identifier
assigned once at construction; `model` is the device model captured at
construction (`new Ledger(devicePath, usbDevice.id)`). -/
structure Ledger where
  id : Nat
  devicePath : String
  model : Nat
  derivation : Derivation
  accountLimit : Nat
deriving DecidableEq, Repr

/-- `updateDerivation` (adapter.ts lines 15-20).  Note the JavaScript
truthiness short-circuit `accountLimit || (...)`: a nonzero `accountLimit`
argument is stored as-is, regardless of the derivation scheme; the
live-scheme guard applies only when the argument is zero. -/
def updateDerivation (st : Store) (ledger : Ledger) (derivation : Derivation)
    (accountLimit : Nat) : Ledger :=
  let liveAccountLimit :=
    if accountLimit ≠ 0 then accountLimit
    else if derivation = Derivation.live then st.liveAccountLimit else 0
  { ledger with derivation := derivation, accountLimit := liveAccountLimit }

/-- Observable effects: the adapter's outward emissions (`add`, `remove`,
`update`), the external calls it makes on a handle, and the log line of an
unresolvable attach. -/
inductive Ev where
  | add (id : Nat)
  | removeEmit (id : Nat)
  | updateEmit (id : Nat)
  | openCall (id : Nat)
  | connectCall (id : Nat)
  | disconnectCall (id : Nat)
  | closeCall (id : Nat)
  | deriveCall (id : Nat)
  | logUnresolved
deriving DecidableEq, Repr

/-- One entry of `this.disconnections` (and one created timer): the device
path at detach time, the timer id, and the handle (by id) the timeout
callback captured. -/
structure Pending where
  devicePath : String
  timeoutId : Nat
  ledgerId : Nat
deriving DecidableEq, Repr

/-- Adapter state: `knownSigners` and `disconnections` are the two instance
arrays; `timers`/`cancelled`/`fired` model the timer environment; `observer`
is whether `open()` installed the store observer; `events` is the log of
observable effects. -/
structure AdapterState where
  knownSigners : List Ledger
  disconnections : List Pending
  timers : List Pending
  cancelled : List Nat
  fired : List Nat
  nextSignerId : Nat
  nextTimeoutId : Nat
  observer : Bool
  events : List Ev
deriving DecidableEq, Repr

/-- The state after the constructor: both arrays empty, no observer. -/
def initState : AdapterState :=
  { knownSigners := [], disconnections := [], timers := [], cancelled := [],
    fired := [], nextSignerId := 0, nextTimeoutId := 0, observer := false,
    events := [] }

/-- JavaScript `Array.prototype.splice(i, 1)`: a negative start index counts
from the end (clamped at 0), a start index past the end removes nothing. -/
def jsSplice1 (l : List α) (i : Int) : List α :=
  let s : Nat := if i < 0 then ((l.length : Int) + i).toNat else i.toNat
  l.take s ++ l.drop (s + 1)

/-- JavaScript `Array.prototype.findIndex`: `-1` when no element matches. -/
def jsFindIndex (p : α → Bool) (l : List α) : Int :=
  match l.findIdx? p with
  | some n => (n : Int)
  | none => -1

/-- `getAttachedDevicePath` (lines 163-169): the first enumerated device
whose path is not yet known; `""` when every visible path is known (a device
with no path is reported as `""`, matching `d.path || ''` in the source). -/
def getAttachedDevicePath (knownDevicePaths : List String)
    (devices : List String) : String :=
  match devices.find? (fun p => !(knownDevicePaths.contains p)) with
  | some p => p
  | none => ""

/-- Lines 72-94 of `handleAttachedDevice`: resolve the attaching device's
path.  If an unowned path is visible, use it (state untouched).  Otherwise
`pop` the most recent pending disconnection, `clearTimeout` its timer and use
its path; `none` when there is no pending disconnection either. -/
def resolveAttachedPath (st : AdapterState) (devices : List String) :
    Option (String × AdapterState) :=
  let knownPaths := st.knownSigners.map (fun s => s.devicePath)
  let devicePath := getAttachedDevicePath knownPaths devices
  if devicePath = "" then
    match st.disconnections.getLast? with
    | none => none
    | some pendingDisconnection =>
        some (pendingDisconnection.devicePath,
          { st with
              disconnections := st.disconnections.dropLast,
              cancelled := pendingDisconnection.timeoutId :: st.cancelled })
  else
    some (devicePath, st)

/-- `handleAttachedDevice` (lines 69-128).  After path resolution: an
existing handle at the resolved path is reused in place, otherwise a new
handle is constructed (emitting `add` first) and pushed; either way
`updateDerivation(ledger)` (store defaults, account limit argument 0) runs,
then `open()` and `connect()`. -/
def handleAttachedDevice (store : Store) (devices : List String)
    (usbDeviceId : Nat) (st : AdapterState) : AdapterState :=
  match resolveAttachedPath st devices with
  | none => { st with events := st.events ++ [Ev.logUnresolved] }
  | some (devicePath, st1) =>
    match st1.knownSigners.findIdx? (fun l => l.devicePath == devicePath) with
    | some i =>
      match st1.knownSigners[i]? with
      | some ledger =>
          { st1 with
              knownSigners := st1.knownSigners.set i
                (updateDerivation store ledger store.derivation 0),
              events := st1.events ++ [Ev.openCall ledger.id, Ev.connectCall ledger.id] }
      | none => st1
    | none =>
      let ledger : Ledger :=
        { id := st1.nextSignerId, devicePath := devicePath, model := usbDeviceId,
          derivation := store.derivation, accountLimit := 0 }
      { st1 with
          knownSigners := st1.knownSigners ++ [updateDerivation store ledger store.derivation 0],
          nextSignerId := st1.nextSignerId + 1,
          events := st1.events ++
            [Ev.add ledger.id, Ev.openCall ledger.id, Ev.connectCall ledger.id] }

/-- `getDetachedSigner` (lines 171-182): the first known signer whose model
matches the event and whose path is absent from the current enumeration. -/
def getDetachedSigner (st : AdapterState) (devices : List String)
    (usbDeviceId : Nat) : Option Ledger :=
  st.knownSigners.find? (fun signer =>
    signer.model == usbDeviceId && !(devices.contains signer.devicePath))

/-- `handleDetachedDevice` (lines 130-161): disconnect the resolved signer;
off Windows, additionally push a pending disconnection with a fresh 5s timer.
On Windows nothing else happens (no removal, no close, no pending entry). -/
def handleDetachedDevice (isWindows : Bool) (devices : List String)
    (usbDeviceId : Nat) (st : AdapterState) : AdapterState :=
  match getDetachedSigner st devices usbDeviceId with
  | none => st
  | some ledger =>
    let st1 := { st with events := st.events ++ [Ev.disconnectCall ledger.id] }
    if isWindows then st1
    else
      let pd : Pending :=
        { devicePath := ledger.devicePath, timeoutId := st1.nextTimeoutId,
          ledgerId := ledger.id }
      { st1 with
          disconnections := st1.disconnections ++ [pd],
          timers := st1.timers ++ [pd],
          nextTimeoutId := st1.nextTimeoutId + 1 }

/-- The timeout callback (lines 150-157), firing for timer `t`: it runs only
if the timer exists, was never cleared and has not fired.  The callback
splices out the first `disconnections` entry whose path equals the captured
handle's path, splices the captured handle out of `knownSigners` by identity
(`indexOf`), and calls `close()` on it, which makes the handle emit its
`close` signal and hence the adapter emit `remove`.  Both `findIndex` and
`indexOf` yield `-1` when the element is absent, in which case `splice(-1,1)`
deletes the last element of a non-empty array. -/
def expireTimeout (t : Nat) (st : AdapterState) : AdapterState :=
  match st.timers.find? (fun d => d.timeoutId == t) with
  | none => st
  | some pd =>
    if t ∈ st.cancelled ∨ t ∈ st.fired then st
    else
      { st with
          disconnections := jsSplice1 st.disconnections
            (jsFindIndex (fun d => d.devicePath == pd.devicePath) st.disconnections),
          knownSigners := jsSplice1 st.knownSigners
            (jsFindIndex (fun s => s.id == pd.ledgerId) st.knownSigners),
          fired := t :: st.fired,
          events := st.events ++ [Ev.closeCall pd.ledgerId, Ev.removeEmit pd.ledgerId] }

/-- Body of the store-observer callback (lines 39-47), for one signer:
re-derive iff the derivation differs from the store's, or the signer is on
the live scheme with a different account limit.  Returns the (possibly
updated) signer and whether `deriveAddresses()` was called. -/
def observerStep (store : Store) (ledger : Ledger) : Ledger × Bool :=
  if ledger.derivation ≠ store.derivation ∨
      (ledger.derivation = Derivation.live ∧
        ledger.accountLimit ≠ store.liveAccountLimit) then
    (updateDerivation store ledger store.derivation store.liveAccountLimit, true)
  else
    (ledger, false)

/-- The store-observer callback (lines 35-48) over the whole registry. -/
def observerCallback (store : Store) (st : AdapterState) : AdapterState :=
  let results := st.knownSigners.map (observerStep store)
  { st with
      knownSigners := results.map Prod.fst,
      events := st.events ++
        (results.filter Prod.snd).map (fun r => Ev.deriveCall r.1.id) }

/-- `open` (lines 34-51): installs the store observer. -/
def openAdapter (st : AdapterState) : AdapterState :=
  { st with observer := true }

/-- `close` (lines 53-57): `this.observer.remove()`.  When `open()` was never
called, `this.observer` is `undefined` and the call throws a `TypeError`. -/
def closeAdapter (st : AdapterState) : Except String AdapterState :=
  if st.observer then Except.ok st else Except.error "TypeError"

/-- One platform event fed to the adapter. -/
inductive AdapterEvent where
  | attach (store : Store) (devices : List String) (usbDeviceId : Nat)
  | detach (devices : List String) (usbDeviceId : Nat)
  | expire (t : Nat)
  | config (store : Store)
deriving DecidableEq, Repr

/-- Dispatch one event (the `IS_WINDOWS` module constant is a parameter). -/
def step (isWindows : Bool) (st : AdapterState) : AdapterEvent → AdapterState
  | AdapterEvent.attach store devices usbDeviceId =>
      handleAttachedDevice store devices usbDeviceId st
  | AdapterEvent.detach devices usbDeviceId =>
      handleDetachedDevice isWindows devices usbDeviceId st
  | AdapterEvent.expire t => expireTimeout t st
  | AdapterEvent.config store => observerCallback store st

/-- Run a sequence of events from the freshly constructed adapter. -/
def run (isWindows : Bool) (events : List AdapterEvent) : AdapterState :=
  events.foldl (step isWindows) initState

/-- The ids carried by `add` emissions in an event log: one entry per handle
ever constructed. -/
def addIds (events : List Ev) : List Nat :=
  events.filterMap (fun e => match e with | Ev.add i => some i | _ => none)

/-- The registry/identity invariant of claim C2 (with the bookkeeping
conjuncts that make it inductive): device paths of registered handles are
pairwise distinct, registered ids are pairwise distinct and below the
id counter, and the ids ever announced through `add` emissions (one per
constructed handle) are pairwise distinct and below the counter. -/
def RegistryInv (st : AdapterState) : Prop :=
  (st.knownSigners.map (fun s => s.devicePath)).Nodup ∧
  (st.knownSigners.map (fun s => s.id)).Nodup ∧
  (∀ l ∈ st.knownSigners, l.id < st.nextSignerId) ∧
  (addIds st.events).Nodup ∧
  (∀ i ∈ addIds st.events, i < st.nextSignerId)

/-! ### Helper lemmas -/

theorem addIds_append (l1 l2 : List Ev) :
    addIds (l1 ++ l2) = addIds l1 ++ addIds l2 := by
  simp [addIds]

theorem set_getElem?_self {α : Type _} :
    ∀ (l : List α) (i : Nat) (a : α), l[i]? = some a → l.set i a = l
  | [], i, a, h => by simp at h
  | x :: xs, 0, a, h => by simp_all
  | x :: xs, i + 1, a, h => by
      simp only [List.getElem?_cons_succ] at h
      simp [List.set, set_getElem?_self xs i a h]

theorem jsSplice1_natCast (l : List α) (n : Nat) :
    jsSplice1 l (n : Int) = l.take n ++ l.drop (n + 1) := by
  have h : ¬((n : Int) < 0) := by omega
  simp [jsSplice1, h]

/-- The first-match splice of the timeout callback equals `eraseP` whenever a
match exists. -/
theorem take_drop_eraseP (p : α → Bool) :
    ∀ (l : List α) (n : Nat), l.findIdx? p = some n →
      l.take n ++ l.drop (n + 1) = l.eraseP p
  | [], n, h => by simp at h
  | x :: xs, n, h => by
      rw [List.findIdx?_cons] at h
      by_cases hx : p x
      · rw [if_pos hx] at h
        cases h
        simp [List.eraseP_cons_of_pos hx]
      · rw [if_neg hx, List.findIdx?_succ] at h
        cases hfind : xs.findIdx? p with
        | none => rw [hfind] at h; simp at h
        | some m =>
          rw [hfind, Option.map_some'] at h
          injection h with h
          subst h
          rw [List.eraseP_cons_of_neg hx, List.take_succ_cons, List.drop_succ_cons,
            List.cons_append]
          exact congrArg (x :: ·) (take_drop_eraseP p xs m hfind)

theorem jsSplice1_jsFindIndex_eraseP (p : α → Bool) (l : List α) (n : Nat)
    (h : l.findIdx? p = some n) :
    jsSplice1 l (jsFindIndex p l) = l.eraseP p := by
  unfold jsFindIndex
  rw [h, jsSplice1_natCast]
  exact take_drop_eraseP p l n h

theorem take_drop_sublist (l : List α) (s : Nat) :
    List.Sublist (l.take s ++ l.drop (s + 1)) l := by
  conv_rhs => rw [← List.take_append_drop s l]
  exact (List.append_sublist_append_left _).2
    (List.drop_sublist_drop_left l (Nat.le_succ _))

theorem jsSplice1_sublist (l : List α) (i : Int) :
    List.Sublist (jsSplice1 l i) l := by
  unfold jsSplice1
  exact take_drop_sublist l _

/-- Erasing the unique element carrying value `b` under `f` removes `b` from
the image. -/
theorem not_mem_map_eraseP_of_nodup {α β : Type _} [DecidableEq β] (f : α → β)
    (b : β) (l : List α) (hnd : (l.map f).Nodup) (a : α) (ha : a ∈ l)
    (hfa : f a = b) : b ∉ (l.eraseP (fun x => f x == b)).map f := by
  obtain ⟨a', l₁, l₂, _, hpa', hdecomp, herase⟩ :=
    List.exists_of_eraseP (p := fun x => f x == b) ha (by simp [hfa])
  rw [herase]
  subst hdecomp
  have hfa' : f a' = b := by simpa using hpa'
  rw [List.map_append, List.map_cons, List.nodup_append, List.nodup_cons] at hnd
  obtain ⟨-, ⟨hnotl2, -⟩, hdisj⟩ := hnd
  have hnotl1 : f a' ∉ l₁.map f := fun hc => hdisj hc (List.mem_cons_self _ _)
  rw [List.map_append, List.mem_append, ← hfa']
  rintro (hmem | hmem)
  · exact hnotl1 hmem
  · exact hnotl2 hmem

theorem updateDerivation_id (st : Store) (l : Ledger) (d : Derivation) (a : Nat) :
    (updateDerivation st l d a).id = l.id := rfl

theorem updateDerivation_devicePath (st : Store) (l : Ledger) (d : Derivation) (a : Nat) :
    (updateDerivation st l d a).devicePath = l.devicePath := rfl

/-- When the observer passes the store's own values, the stored account limit
comes out as exactly the store's `liveAccountLimit` (in the nonzero case via
the truthiness short-circuit, in the zero case because both branches of the
live-scheme guard give 0). -/
theorem updateDerivation_store (st : Store) (l : Ledger) :
    updateDerivation st l st.derivation st.liveAccountLimit =
      { l with derivation := st.derivation, accountLimit := st.liveAccountLimit } := by
  unfold updateDerivation
  by_cases h : st.liveAccountLimit = 0
  · simp only [h, ne_eq, not_true_eq_false, if_false]
    split <;> simp [h]
  · simp [h]

/-- Re-running the observer body on a signer it just processed does nothing:
the processed signer's configuration already matches the store. -/
theorem observerStep_idem (store : Store) (l : Ledger) :
    observerStep store ((observerStep store l).1) = ((observerStep store l).1, false) := by
  unfold observerStep
  split
  · rw [updateDerivation_store]
    simp
  · next h => simp only [if_neg h]

theorem observerStep_fst_id (store : Store) (l : Ledger) :
    ((observerStep store l).1).id = l.id := by
  unfold observerStep
  split <;> rfl

theorem observerStep_fst_devicePath (store : Store) (l : Ledger) :
    ((observerStep store l).1).devicePath = l.devicePath := by
  unfold observerStep
  split <;> rfl

theorem nodup_append_singleton {α : Type _} (l : List α) (a : α)
    (hl : l.Nodup) (ha : a ∉ l) : (l ++ [a]).Nodup := by
  rw [List.nodup_append]
  refine ⟨hl, List.nodup_singleton a, fun x hx hxa => ?_⟩
  rw [List.mem_singleton] at hxa
  exact ha (hxa ▸ hx)

/-- Path resolution never touches the registry, the log or the id counter. -/
theorem resolveAttachedPath_some (st : AdapterState) (devices : List String)
    (dp : String) (st1 : AdapterState)
    (h : resolveAttachedPath st devices = some (dp, st1)) :
    st1.knownSigners = st.knownSigners ∧ st1.events = st.events ∧
    st1.nextSignerId = st.nextSignerId := by
  unfold resolveAttachedPath at h
  dsimp only at h
  by_cases hdp : getAttachedDevicePath
      (st.knownSigners.map (fun s => s.devicePath)) devices = ""
  · rw [if_pos hdp] at h
    cases hl : st.disconnections.getLast? with
    | none => rw [hl] at h; exact absurd h (by simp)
    | some pd =>
        rw [hl] at h
        simp only [Option.some.injEq, Prod.mk.injEq] at h
        obtain ⟨-, h2⟩ := h
        rw [← h2]
        exact ⟨rfl, rfl, rfl⟩
  · rw [if_neg hdp] at h
    simp only [Option.some.injEq, Prod.mk.injEq] at h
    obtain ⟨-, h2⟩ := h
    rw [← h2]
    exact ⟨rfl, rfl, rfl⟩

theorem registryInv_attach (store : Store) (devices : List String)
    (usbDeviceId : Nat) (st : AdapterState) (h : RegistryInv st) :
    RegistryInv (handleAttachedDevice store devices usbDeviceId st) := by
  obtain ⟨h1, h2, h3, h4, h5⟩ := h
  unfold handleAttachedDevice
  cases hres : resolveAttachedPath st devices with
  | none =>
      refine ⟨h1, h2, h3, ?_, ?_⟩
      · rw [addIds_append]; simpa [addIds] using h4
      · rw [addIds_append]; simpa [addIds] using h5
  | some pair =>
      obtain ⟨dp, st1⟩ := pair
      obtain ⟨hk, he, hn⟩ := resolveAttachedPath_some st devices dp st1 hres
      dsimp only
      cases hidx : st1.knownSigners.findIdx? (fun l => l.devicePath == dp) with
      | some i =>
          dsimp only
          cases hget : st1.knownSigners[i]? with
          | none => exact ⟨hk ▸ h1, hk ▸ h2, hk ▸ hn ▸ h3, he ▸ h4, he ▸ hn ▸ h5⟩
          | some ledger =>
              have hsetp : (st1.knownSigners.set i
                    (updateDerivation store ledger store.derivation 0)).map
                    (fun s => s.devicePath) =
                  st1.knownSigners.map (fun s => s.devicePath) := by
                rw [List.map_set]
                exact set_getElem?_self _ i _
                  (by rw [List.getElem?_map, hget]; rfl)
              have hseti : (st1.knownSigners.set i
                    (updateDerivation store ledger store.derivation 0)).map
                    (fun s => s.id) =
                  st1.knownSigners.map (fun s => s.id) := by
                rw [List.map_set]
                exact set_getElem?_self _ i _
                  (by rw [List.getElem?_map, hget]; rfl)
              refine ⟨?_, ?_, ?_, ?_, ?_⟩
              · rw [hsetp, hk]; exact h1
              · rw [hseti, hk]; exact h2
              · intro l hl
                rcases List.mem_or_eq_of_mem_set hl with hmem | rfl
                · exact hn ▸ h3 l (hk ▸ hmem)
                · rw [updateDerivation_id, hn]
                  exact h3 ledger (hk ▸ List.getElem?_mem hget)
              · rw [addIds_append, he]; simpa [addIds] using h4
              · rw [addIds_append, he, hn]
                intro j hj
                exact h5 j (by simpa [addIds] using hj)
      | none =>
          dsimp only
          have hdpnot : dp ∉ st1.knownSigners.map (fun s => s.devicePath) := by
            intro hmem
            rw [List.mem_map] at hmem
            obtain ⟨x, hx, hxe⟩ := hmem
            have := List.findIdx?_eq_none_iff.1 hidx x hx
            rw [beq_eq_false_iff_ne] at this
            exact this hxe
          have hidnot : st1.nextSignerId ∉ st1.knownSigners.map (fun s => s.id) := by
            intro hmem
            rw [List.mem_map] at hmem
            obtain ⟨x, hx, hxe⟩ := hmem
            have := h3 x (hk ▸ hx)
            rw [hxe, ← hn] at this
            exact Nat.lt_irrefl _ this
          refine ⟨?_, ?_, ?_, ?_, ?_⟩
          · rw [List.map_append]
            exact nodup_append_singleton _ _ (hk ▸ h1) hdpnot
          · rw [List.map_append]
            exact nodup_append_singleton _ _ (hk ▸ h2) hidnot
          · intro l hl
            rcases List.mem_append.1 hl with hmem | hmem
            · exact Nat.lt_succ_of_lt (hn ▸ h3 l (hk ▸ hmem))
            · rw [List.mem_singleton] at hmem
              rw [hmem, updateDerivation_id]
              exact Nat.lt_succ_self _
          · rw [addIds_append, he]
            have : addIds [Ev.add st1.nextSignerId, Ev.openCall st1.nextSignerId,
                Ev.connectCall st1.nextSignerId] = [st1.nextSignerId] := rfl
            rw [this]
            refine nodup_append_singleton _ _ h4 (fun hmem => ?_)
            have := h5 _ hmem
            rw [← hn] at this
            exact Nat.lt_irrefl _ this
          · rw [addIds_append, he]
            intro j hj
            rcases List.mem_append.1 hj with hmem | hmem
            · exact Nat.lt_succ_of_lt (hn ▸ h5 j hmem)
            · rw [show addIds [Ev.add st1.nextSignerId, Ev.openCall st1.nextSignerId,
                  Ev.connectCall st1.nextSignerId] = [st1.nextSignerId] from rfl,
                List.mem_singleton] at hmem
              rw [hmem]
              exact Nat.lt_succ_self _

theorem registryInv_detach (isWindows : Bool) (devices : List String)
    (usbDeviceId : Nat) (st : AdapterState) (h : RegistryInv st) :
    RegistryInv (handleDetachedDevice isWindows devices usbDeviceId st) := by
  obtain ⟨h1, h2, h3, h4, h5⟩ := h
  unfold handleDetachedDevice
  cases hd : getDetachedSigner st devices usbDeviceId with
  | none => exact ⟨h1, h2, h3, h4, h5⟩
  | some led =>
      dsimp only
      split <;>
        exact ⟨h1, h2, h3, by rw [addIds_append]; simpa [addIds] using h4,
          by rw [addIds_append]; simpa [addIds] using h5⟩

theorem registryInv_expire (t : Nat) (st : AdapterState) (h : RegistryInv st) :
    RegistryInv (expireTimeout t st) := by
  obtain ⟨h1, h2, h3, h4, h5⟩ := h
  unfold expireTimeout
  cases hf : st.timers.find? (fun d => d.timeoutId == t) with
  | none => exact ⟨h1, h2, h3, h4, h5⟩
  | some pd =>
      dsimp only
      split
      · exact ⟨h1, h2, h3, h4, h5⟩
      · have hsub := jsSplice1_sublist st.knownSigners
          (jsFindIndex (fun s => s.id == pd.ledgerId) st.knownSigners)
        refine ⟨?_, ?_, ?_, ?_, ?_⟩
        · exact (hsub.map _).nodup h1
        · exact (hsub.map _).nodup h2
        · intro l hl; exact h3 l (hsub.subset hl)
        · rw [addIds_append]; simpa [addIds] using h4
        · rw [addIds_append]; simpa [addIds] using h5

theorem registryInv_config (store : Store) (st : AdapterState)
    (h : RegistryInv st) : RegistryInv (observerCallback store st) := by
  obtain ⟨h1, h2, h3, h4, h5⟩ := h
  unfold observerCallback
  dsimp only
  have hpath : ((st.knownSigners.map (observerStep store)).map Prod.fst).map
      (fun s => s.devicePath) = st.knownSigners.map (fun s => s.devicePath) := by
    simp only [List.map_map]
    exact List.map_congr_left (fun a _ => observerStep_fst_devicePath store a)
  have hid : ((st.knownSigners.map (observerStep store)).map Prod.fst).map
      (fun s => s.id) = st.knownSigners.map (fun s => s.id) := by
    simp only [List.map_map]
    exact List.map_congr_left (fun a _ => observerStep_fst_id store a)
  have haddids : addIds (((st.knownSigners.map (observerStep store)).filter
      Prod.snd).map (fun r => Ev.deriveCall r.1.id)) = [] := by
    unfold addIds
    rw [List.filterMap_map]
    simp [Function.comp_def]
  refine ⟨?_, ?_, ?_, ?_, ?_⟩
  · rw [hpath]; exact h1
  · rw [hid]; exact h2
  · intro l hl
    simp only [List.map_map, List.mem_map] at hl
    obtain ⟨a, ha, rfl⟩ := hl
    simpa [Function.comp_def, observerStep_fst_id] using h3 a ha
  · rw [addIds_append, haddids, List.append_nil]; exact h4
  · rw [addIds_append, haddids, List.append_nil]; exact h5

theorem registryInv_step (isWindows : Bool) (st : AdapterState)
    (e : AdapterEvent) (h : RegistryInv st) : RegistryInv (step isWindows st e) := by
  cases e with
  | attach store devices usbDeviceId =>
      exact registryInv_attach store devices usbDeviceId st h
  | detach devices usbDeviceId =>
      exact registryInv_detach isWindows devices usbDeviceId st h
  | expire t => exact registryInv_expire t st h
  | config store => exact registryInv_config store st h

theorem registryInv_run (isWindows : Bool) (events : List AdapterEvent) :
    RegistryInv (run isWindows events) := by
  unfold run
  have hstep : ∀ st, RegistryInv st →
      RegistryInv (events.foldl (step isWindows) st) := by
    induction events with
    | nil => intro st h; exact h
    | cons e es ih => intro st h; exact ih _ (registryInv_step isWindows st e h)
  refine hstep initState ?_
  refine ⟨?_, ?_, ?_, ?_, ?_⟩ <;> simp [initState, addIds]

/-! ### Claim theorems -/

/-- Claim C1, counterexample.  A device attaches as `/dev/A` (handle id 0),
detaches (pending disconnection recorded), and within the grace window the
platform reports the reattachment under the different path `/dev/B`.
Contrary to the claim, `handleAttachedDevice` does not reuse the existing
handle: it creates a second handle with a fresh id 1, emits a second `add`,
and leaves the pending disconnection (and its timer) unconsumed. -/
theorem c1_counterexample :
    (handleAttachedDevice ⟨Derivation.standard, 0⟩ ["/dev/B"] 7
        (handleDetachedDevice false [] 7
          (handleAttachedDevice ⟨Derivation.standard, 0⟩ ["/dev/A"] 7
            initState))).knownSigners.map (fun l => (l.id, l.devicePath)) =
      [(0, "/dev/A"), (1, "/dev/B")] ∧
    addIds (handleAttachedDevice ⟨Derivation.standard, 0⟩ ["/dev/B"] 7
        (handleDetachedDevice false [] 7
          (handleAttachedDevice ⟨Derivation.standard, 0⟩ ["/dev/A"] 7
            initState))).events = [0, 1] ∧
    (handleAttachedDevice ⟨Derivation.standard, 0⟩ ["/dev/B"] 7
        (handleDetachedDevice false [] 7
          (handleAttachedDevice ⟨Derivation.standard, 0⟩ ["/dev/A"] 7
            initState))).disconnections.map (fun d => d.devicePath) =
      ["/dev/A"] := by
  decide

/-- Claim C1, amended: the existing handle is reused precisely when the
attach event finds no unowned path in the enumeration (e.g. the device
reattaches under its previous path, or the platform has not yet listed the
new one).  Then the most recent pending disconnection is popped, its timer
cancelled, and the handle registered under the popped path is reused: all
ids and device paths are unchanged (id retained, `devicePath` keeps its
pre-detach value), and only `open()`/`connect()` are called — no `add` or
`remove` is emitted. -/
theorem c1_reuse_when_no_new_path (store : Store) (devices : List String)
    (usbDeviceId : Nat) (st : AdapterState) (pd : Pending) (i : Nat)
    (led : Ledger)
    (h0 : getAttachedDevicePath (st.knownSigners.map (fun s => s.devicePath))
      devices = "")
    (hpd : st.disconnections.getLast? = some pd)
    (hidx : st.knownSigners.findIdx? (fun l => l.devicePath == pd.devicePath) =
      some i)
    (hget : st.knownSigners[i]? = some led) :
    (handleAttachedDevice store devices usbDeviceId st).knownSigners.map
        (fun l => (l.id, l.devicePath)) =
      st.knownSigners.map (fun l => (l.id, l.devicePath)) ∧
    (handleAttachedDevice store devices usbDeviceId st).events =
      st.events ++ [Ev.openCall led.id, Ev.connectCall led.id] ∧
    (handleAttachedDevice store devices usbDeviceId st).disconnections =
      st.disconnections.dropLast ∧
    (handleAttachedDevice store devices usbDeviceId st).cancelled =
      pd.timeoutId :: st.cancelled := by
  have hres : resolveAttachedPath st devices =
      some (pd.devicePath,
        { st with disconnections := st.disconnections.dropLast,
                  cancelled := pd.timeoutId :: st.cancelled }) := by
    unfold resolveAttachedPath
    simp only [h0, if_pos, hpd]
  unfold handleAttachedDevice
  rw [hres]
  dsimp only
  rw [hidx]
  dsimp only
  rw [hget]
  refine ⟨?_, rfl, rfl, rfl⟩
  dsimp only
  rw [List.map_set]
  exact set_getElem?_self _ i _ (by rw [List.getElem?_map, hget]; rfl)

/-- Claim C1, amended-statement witness: handle id 0 at `/dev/A` detaches;
the reattach event still enumerates only `/dev/A` (no unowned path), so the
pending entry is claimed and the handle reused with no `add`/`remove`. -/
theorem c1_reuse_when_no_new_path_witness :
    getAttachedDevicePath
        ((handleDetachedDevice false [] 7
          (handleAttachedDevice ⟨Derivation.standard, 0⟩ ["/dev/A"] 7
            initState)).knownSigners.map (fun s => s.devicePath)) ["/dev/A"] = "" ∧
    (handleAttachedDevice ⟨Derivation.standard, 0⟩ ["/dev/A"] 7
        (handleDetachedDevice false [] 7
          (handleAttachedDevice ⟨Derivation.standard, 0⟩ ["/dev/A"] 7
            initState))).knownSigners.map (fun l => (l.id, l.devicePath)) =
      (handleDetachedDevice false [] 7
        (handleAttachedDevice ⟨Derivation.standard, 0⟩ ["/dev/A"] 7
          initState)).knownSigners.map (fun l => (l.id, l.devicePath)) ∧
    (handleAttachedDevice ⟨Derivation.standard, 0⟩ ["/dev/A"] 7
        (handleDetachedDevice false [] 7
          (handleAttachedDevice ⟨Derivation.standard, 0⟩ ["/dev/A"] 7
            initState))).events =
      (handleDetachedDevice false [] 7
        (handleAttachedDevice ⟨Derivation.standard, 0⟩ ["/dev/A"] 7
          initState)).events ++ [Ev.openCall 0, Ev.connectCall 0] ∧
    (handleAttachedDevice ⟨Derivation.standard, 0⟩ ["/dev/A"] 7
        (handleDetachedDevice false [] 7
          (handleAttachedDevice ⟨Derivation.standard, 0⟩ ["/dev/A"] 7
            initState))).disconnections = [] ∧
    (handleAttachedDevice ⟨Derivation.standard, 0⟩ ["/dev/A"] 7
        (handleDetachedDevice false [] 7
          (handleAttachedDevice ⟨Derivation.standard, 0⟩ ["/dev/A"] 7
            initState))).cancelled = [0] :=
  ⟨by decide,
   c1_reuse_when_no_new_path ⟨Derivation.standard, 0⟩ ["/dev/A"] 7
     (handleDetachedDevice false [] 7
       (handleAttachedDevice ⟨Derivation.standard, 0⟩ ["/dev/A"] 7 initState))
     { devicePath := "/dev/A", timeoutId := 0, ledgerId := 0 } 0
     { id := 0, devicePath := "/dev/A", model := 7,
       derivation := Derivation.standard, accountLimit := 0 }
     (by decide) (by decide) (by decide) (by decide)⟩

/-- Claim C10: when the enumeration shows a path not owned by any registry
entry (and real, i.e. nonempty — the source encodes a missing path as the
empty string), `resolveAttachedPath` resolves to the first such unowned path
in enumeration order, touching neither the pending-disconnection list nor
any timer; only when no unowned path is visible does it pop the most recent
pending entry, cancelling that entry's timer. -/
theorem c10_resolution_prefers_new_path (st : AdapterState)
    (devices : List String) (h1 : "" ∉ devices) :
    (∀ p0, devices.find?
        (fun p => !((st.knownSigners.map (fun s => s.devicePath)).contains p)) =
          some p0 →
      resolveAttachedPath st devices = some (p0, st)) ∧
    (devices.find?
        (fun p => !((st.knownSigners.map (fun s => s.devicePath)).contains p)) =
          none →
      resolveAttachedPath st devices =
        (st.disconnections.getLast?).map (fun pd =>
          (pd.devicePath,
            { st with disconnections := st.disconnections.dropLast,
                      cancelled := pd.timeoutId :: st.cancelled }))) := by
  constructor
  · intro p0 hfind
    have hp0ne : p0 ≠ "" := fun he => h1 (he ▸ List.mem_of_find?_eq_some hfind)
    unfold resolveAttachedPath getAttachedDevicePath
    simp only [hfind, if_neg hp0ne]
  · intro hnone
    unfold resolveAttachedPath getAttachedDevicePath
    simp only [hnone, if_pos]
    cases hl : st.disconnections.getLast? <;> simp

/-- Claim C10, witness: with handle id 0 at `/dev/A` registered and a pending
disconnection live, an attach enumerating the unowned `/dev/B` resolves to
`/dev/B` and leaves the pending entry unconsumed. -/
theorem c10_resolution_prefers_new_path_witness :
    ("" ∉ ["/dev/B"]) ∧
    resolveAttachedPath
        (handleDetachedDevice false [] 7
          (handleAttachedDevice ⟨Derivation.standard, 0⟩ ["/dev/A"] 7
            initState)) ["/dev/B"] =
      some ("/dev/B",
        handleDetachedDevice false [] 7
          (handleAttachedDevice ⟨Derivation.standard, 0⟩ ["/dev/A"] 7
            initState)) :=
  ⟨by decide,
   (c10_resolution_prefers_new_path
     (handleDetachedDevice false [] 7
       (handleAttachedDevice ⟨Derivation.standard, 0⟩ ["/dev/A"] 7 initState))
     ["/dev/B"] (by decide)).1 "/dev/B" (by decide)⟩

/-- Claim C3, counterexample.  On Windows, a detach event for a resolved
signer does not remove the handle from the registry and does not close it:
the handle (id 0) is still registered afterwards and no `close()` call or
`remove` emission ever happens. -/
theorem c3_counterexample :
    (handleDetachedDevice true [] 7
        (handleAttachedDevice ⟨Derivation.standard, 0⟩ ["/dev/A"] 7
          initState)).knownSigners.map (fun l => l.id) = [0] ∧
    (handleDetachedDevice true [] 7
        (handleAttachedDevice ⟨Derivation.standard, 0⟩ ["/dev/A"] 7
          initState)).events.count (Ev.closeCall 0) = 0 ∧
    (handleDetachedDevice true [] 7
        (handleAttachedDevice ⟨Derivation.standard, 0⟩ ["/dev/A"] 7
          initState)).events.count (Ev.removeEmit 0) = 0 := by
  decide

/-- Claim C4, code bug.  The store observer reads `liveAccountLimit = 20`
while the derivation scheme changes to `standard`; it calls
`updateDerivation(ledger, 'standard', 20)` and the truthiness short-circuit
`accountLimit || (...)` stores the nonzero limit 20 together with the
non-live scheme, contradicting the documented "forced to zero" rule. -/
theorem c4_nonzero_limit_with_nonlive_scheme :
    (observerCallback ⟨Derivation.standard, 20⟩
        { initState with knownSigners :=
            [{ id := 0, devicePath := "/dev/A", model := 7,
               derivation := Derivation.live, accountLimit := 5 }] }).knownSigners.map
      (fun s => (s.derivation, s.accountLimit)) =
    [(Derivation.standard, 20)] := by
  decide

/-- Claim C6: a live timer (created by a detach, never cancelled by a
reattach, not yet fired) whose captured handle is still registered — with
registered ids pairwise distinct, some pending entry still carrying the
captured path, and no prior `close`/`remove` for this handle — fires as
follows: the first pending entry for the path is removed, the handle is
removed from the registry (its id no longer appears), `close()` is called on
it so that the log now holds exactly one `close` call and exactly one
`remove` emission for it. -/
theorem c6_expiry_removes_and_closes_once (st : AdapterState) (t : Nat)
    (pd : Pending) (di si : Nat)
    (htimer : st.timers.find? (fun d => d.timeoutId == t) = some pd)
    (hcanc : t ∉ st.cancelled) (hfired : t ∉ st.fired)
    (hdisc : st.disconnections.findIdx? (fun d => d.devicePath == pd.devicePath) =
      some di)
    (hsig : st.knownSigners.findIdx? (fun s => s.id == pd.ledgerId) = some si)
    (hids : (st.knownSigners.map (fun s => s.id)).Nodup)
    (hc0 : st.events.count (Ev.closeCall pd.ledgerId) = 0)
    (hr0 : st.events.count (Ev.removeEmit pd.ledgerId) = 0) :
    (expireTimeout t st).knownSigners =
        st.knownSigners.eraseP (fun s => s.id == pd.ledgerId) ∧
    pd.ledgerId ∉ (expireTimeout t st).knownSigners.map (fun s => s.id) ∧
    (expireTimeout t st).disconnections =
        st.disconnections.eraseP (fun d => d.devicePath == pd.devicePath) ∧
    (expireTimeout t st).events.count (Ev.closeCall pd.ledgerId) = 1 ∧
    (expireTimeout t st).events.count (Ev.removeEmit pd.ledgerId) = 1 := by
  have hrun : expireTimeout t st =
      { st with
          disconnections := jsSplice1 st.disconnections
            (jsFindIndex (fun d => d.devicePath == pd.devicePath)
              st.disconnections),
          knownSigners := jsSplice1 st.knownSigners
            (jsFindIndex (fun s => s.id == pd.ledgerId) st.knownSigners),
          fired := t :: st.fired,
          events := st.events ++
            [Ev.closeCall pd.ledgerId, Ev.removeEmit pd.ledgerId] } := by
    unfold expireTimeout
    rw [htimer]
    dsimp only
    rw [if_neg (not_or.mpr ⟨hcanc, hfired⟩)]
  rw [hrun]
  have hksp : jsSplice1 st.knownSigners
      (jsFindIndex (fun s => s.id == pd.ledgerId) st.knownSigners) =
      st.knownSigners.eraseP (fun s => s.id == pd.ledgerId) :=
    jsSplice1_jsFindIndex_eraseP _ _ si hsig
  have hdcp : jsSplice1 st.disconnections
      (jsFindIndex (fun d => d.devicePath == pd.devicePath) st.disconnections) =
      st.disconnections.eraseP (fun d => d.devicePath == pd.devicePath) :=
    jsSplice1_jsFindIndex_eraseP _ _ di hdisc
  refine ⟨hksp, ?_, hdcp, ?_, ?_⟩
  · rw [hksp]
    obtain ⟨hlt, hp, -⟩ := List.findIdx?_eq_some_iff_getElem.1 hsig
    exact not_mem_map_eraseP_of_nodup (fun s => s.id) pd.ledgerId st.knownSigners
      hids (st.knownSigners[si]) (st.knownSigners.getElem_mem hlt)
      (by simpa using hp)
  · simp [List.count_append, hc0, List.count_cons]
  · simp [List.count_append, hr0, List.count_cons]

/-- Claim C6, witness: handle id 0 at `/dev/A` attaches then detaches; its
timer 0 fires with no reattach — the handle is unregistered and exactly one
`close()`/`remove` pair is logged. -/
theorem c6_expiry_removes_and_closes_once_witness :
    (handleDetachedDevice false [] 7
        (handleAttachedDevice ⟨Derivation.standard, 0⟩ ["/dev/A"] 7
          initState)).timers.find? (fun d => d.timeoutId == 0) =
      some { devicePath := "/dev/A", timeoutId := 0, ledgerId := 0 } ∧
    (expireTimeout 0
        (handleDetachedDevice false [] 7
          (handleAttachedDevice ⟨Derivation.standard, 0⟩ ["/dev/A"] 7
            initState))).knownSigners =
      (handleDetachedDevice false [] 7
        (handleAttachedDevice ⟨Derivation.standard, 0⟩ ["/dev/A"] 7
          initState)).knownSigners.eraseP (fun s => s.id == 0) ∧
    (0 : Nat) ∉ (expireTimeout 0
        (handleDetachedDevice false [] 7
          (handleAttachedDevice ⟨Derivation.standard, 0⟩ ["/dev/A"] 7
            initState))).knownSigners.map (fun s => s.id) ∧
    (expireTimeout 0
        (handleDetachedDevice false [] 7
          (handleAttachedDevice ⟨Derivation.standard, 0⟩ ["/dev/A"] 7
            initState))).disconnections =
      (handleDetachedDevice false [] 7
        (handleAttachedDevice ⟨Derivation.standard, 0⟩ ["/dev/A"] 7
          initState)).disconnections.eraseP (fun d => d.devicePath == "/dev/A") ∧
    (expireTimeout 0
        (handleDetachedDevice false [] 7
          (handleAttachedDevice ⟨Derivation.standard, 0⟩ ["/dev/A"] 7
            initState))).events.count (Ev.closeCall 0) = 1 ∧
    (expireTimeout 0
        (handleDetachedDevice false [] 7
          (handleAttachedDevice ⟨Derivation.standard, 0⟩ ["/dev/A"] 7
            initState))).events.count (Ev.removeEmit 0) = 1 :=
  ⟨by decide,
   c6_expiry_removes_and_closes_once
     (handleDetachedDevice false [] 7
       (handleAttachedDevice ⟨Derivation.standard, 0⟩ ["/dev/A"] 7 initState))
     0 { devicePath := "/dev/A", timeoutId := 0, ledgerId := 0 } 0 0
     (by decide) (by decide) (by decide) (by decide) (by decide) (by decide)
     (by decide) (by decide)⟩

/-- Claim C7, code bug.  The removal step of the timeout callback is
`splice(indexOf(x), 1)`; for an absent element `indexOf` is `-1` and
`splice(-1, 1)` deletes the *last* entry.  Concretely: the registry holds
only the unrelated handle id 0 and the pending list holds only an unrelated
entry for `/dev/C`; firing the orphaned timer for `/dev/A` (captured handle
id 5, no longer present anywhere) empties both lists instead of leaving
them unchanged. -/
theorem c7_absent_removal_deletes_last :
    (expireTimeout 0
        { initState with
            knownSigners := [{ id := 0, devicePath := "/dev/B", model := 7,
                               derivation := Derivation.standard, accountLimit := 0 }],
            timers := [{ devicePath := "/dev/A", timeoutId := 0, ledgerId := 5 }],
            disconnections := [{ devicePath := "/dev/C", timeoutId := 1,
                                 ledgerId := 6 }] }).knownSigners = [] ∧
    (expireTimeout 0
        { initState with
            knownSigners := [{ id := 0, devicePath := "/dev/B", model := 7,
                               derivation := Derivation.standard, accountLimit := 0 }],
            timers := [{ devicePath := "/dev/A", timeoutId := 0, ledgerId := 5 }],
            disconnections := [{ devicePath := "/dev/C", timeoutId := 1,
                                 ledgerId := 6 }] }).disconnections = [] := by
  decide

/-- Claim C8, code bug.  `close()` without a preceding `open()` evaluates
`this.observer.remove()` with `this.observer` undefined and throws a
`TypeError`; the spec requires `stop()` to be safe when never started. -/
theorem c8_close_without_open_throws :
    closeAdapter initState = Except.error "TypeError" := rfl

/-- Claim C5: delivering the same effective configuration notification twice
in a row is idempotent — the second notification leaves the whole adapter
state unchanged (in particular it appends no `deriveAddresses` call for any
signer) — and a signer whose configuration already matches the notification
is not touched by it at all. -/
theorem c5_config_idempotent (store : Store) (st : AdapterState) :
    observerCallback store (observerCallback store st) = observerCallback store st ∧
    ∀ l ∈ st.knownSigners, l.derivation = store.derivation →
      (l.derivation = Derivation.live → l.accountLimit = store.liveAccountLimit) →
      observerStep store l = (l, false) := by
  constructor
  · unfold observerCallback
    simp only [List.map_map]
    have hcomp :
        st.knownSigners.map (fun l => observerStep store ((observerStep store l).1)) =
          st.knownSigners.map (fun l => ((observerStep store l).1, false)) :=
      List.map_congr_left (fun l _ => observerStep_idem store l)
    simp only [Function.comp_def, hcomp]
    simp [List.filter_map, Function.comp_def]
    intro a _
    rw [observerStep_idem]
  · intro l _ h1 h2
    unfold observerStep
    rw [if_neg]
    push_neg
    refine ⟨h1, fun hlive => ?_⟩
    exact h2 hlive

/-- Claim C5, witness: a signer on the live scheme with limit 20; the store
notifies (live, 20) twice — the second notification is a no-op, and the
matching signer is untouched by the body even once. -/
theorem c5_config_idempotent_witness :
    observerCallback ⟨Derivation.live, 20⟩
        (observerCallback ⟨Derivation.live, 20⟩
          { initState with knownSigners :=
              [{ id := 0, devicePath := "/dev/A", model := 7,
                 derivation := Derivation.standard, accountLimit := 0 },
               { id := 1, devicePath := "/dev/B", model := 7,
                 derivation := Derivation.live, accountLimit := 20 }] }) =
      observerCallback ⟨Derivation.live, 20⟩
        { initState with knownSigners :=
            [{ id := 0, devicePath := "/dev/A", model := 7,
               derivation := Derivation.standard, accountLimit := 0 },
             { id := 1, devicePath := "/dev/B", model := 7,
               derivation := Derivation.live, accountLimit := 20 }] } ∧
    observerStep ⟨Derivation.live, 20⟩
        { id := 1, devicePath := "/dev/B", model := 7,
          derivation := Derivation.live, accountLimit := 20 } =
      ({ id := 1, devicePath := "/dev/B", model := 7,
         derivation := Derivation.live, accountLimit := 20 }, false) :=
  ⟨(c5_config_idempotent ⟨Derivation.live, 20⟩
      { initState with knownSigners :=
          [{ id := 0, devicePath := "/dev/A", model := 7,
             derivation := Derivation.standard, accountLimit := 0 },
           { id := 1, devicePath := "/dev/B", model := 7,
             derivation := Derivation.live, accountLimit := 20 }] }).1,
   (c5_config_idempotent ⟨Derivation.live, 20⟩
      { initState with knownSigners :=
          [{ id := 0, devicePath := "/dev/A", model := 7,
             derivation := Derivation.standard, accountLimit := 0 },
           { id := 1, devicePath := "/dev/B", model := 7,
             derivation := Derivation.live, accountLimit := 20 }] }).2
     _ (by decide) (by decide) (fun _ => by decide)⟩

/-- Claim C3, amended: on a platform where the heuristic is unsafe (Windows),
handling a detach for a resolved signer only invokes `disconnect()` on it;
no pending disconnection is recorded, and — contrary to the claim — the
handle is neither removed from the registry nor closed. -/
theorem c3_windows_detach_only_disconnects (devices : List String)
    (usbDeviceId : Nat) (st : AdapterState) (led : Ledger)
    (h : getDetachedSigner st devices usbDeviceId = some led) :
    handleDetachedDevice true devices usbDeviceId st =
      { st with events := st.events ++ [Ev.disconnectCall led.id] } := by
  unfold handleDetachedDevice
  rw [h]
  simp

/-- Claim C3, witness for the amended statement: the attached handle id 0 at
`/dev/A` detaches on Windows — the only effect is the `disconnect()` call. -/
theorem c3_windows_detach_only_disconnects_witness :
    getDetachedSigner
        (handleAttachedDevice ⟨Derivation.standard, 0⟩ ["/dev/A"] 7 initState)
        [] 7 =
      some { id := 0, devicePath := "/dev/A", model := 7,
             derivation := Derivation.standard, accountLimit := 0 } ∧
    handleDetachedDevice true [] 7
        (handleAttachedDevice ⟨Derivation.standard, 0⟩ ["/dev/A"] 7 initState) =
      { (handleAttachedDevice ⟨Derivation.standard, 0⟩ ["/dev/A"] 7 initState) with
          events := (handleAttachedDevice ⟨Derivation.standard, 0⟩ ["/dev/A"] 7
            initState).events ++ [Ev.disconnectCall 0] } :=
  ⟨by decide,
   c3_windows_detach_only_disconnects [] 7
     (handleAttachedDevice ⟨Derivation.standard, 0⟩ ["/dev/A"] 7 initState)
     { id := 0, devicePath := "/dev/A", model := 7,
       derivation := Derivation.standard, accountLimit := 0 } (by decide)⟩

/-- Claim C9, amended: recording a disconnection for a resolved signer whose
path has no live pending entry yields exactly one entry for that path.  (The
original at-most-one-per-path invariant fails: a second detach event can
resolve to the same signer while the first entry is still live, see the
counterexample.) -/
theorem c9_record_unique_if_fresh (devices : List String) (usbDeviceId : Nat)
    (st : AdapterState) (led : Ledger)
    (h : getDetachedSigner st devices usbDeviceId = some led)
    (h0 : st.disconnections.countP (fun d => d.devicePath == led.devicePath) = 0) :
    ((handleDetachedDevice false devices usbDeviceId st).disconnections.countP
      (fun d => d.devicePath == led.devicePath)) = 1 := by
  unfold handleDetachedDevice
  rw [h]
  simp [List.countP_append, h0]

/-- Claim C9, witness for the amended statement: the first detach of the
handle at `/dev/A` creates exactly one pending entry for `/dev/A`. -/
theorem c9_record_unique_if_fresh_witness :
    getDetachedSigner
        (handleAttachedDevice ⟨Derivation.standard, 0⟩ ["/dev/A"] 7 initState)
        [] 7 =
      some { id := 0, devicePath := "/dev/A", model := 7,
             derivation := Derivation.standard, accountLimit := 0 } ∧
    ((handleAttachedDevice ⟨Derivation.standard, 0⟩ ["/dev/A"] 7
        initState).disconnections.countP (fun d => d.devicePath == "/dev/A")) = 0 ∧
    ((handleDetachedDevice false [] 7
        (handleAttachedDevice ⟨Derivation.standard, 0⟩ ["/dev/A"] 7
          initState)).disconnections.countP (fun d => d.devicePath == "/dev/A")) = 1 :=
  ⟨by decide, by decide,
   c9_record_unique_if_fresh [] 7
     (handleAttachedDevice ⟨Derivation.standard, 0⟩ ["/dev/A"] 7 initState)
     { id := 0, devicePath := "/dev/A", model := 7,
       derivation := Derivation.standard, accountLimit := 0 } (by decide) (by decide)⟩

/-- Claim C2: for every sequence of attach/detach events (with grace-window
expiries and configuration notifications interleaved, on either platform),
the registry never holds two handles with the same `devicePath`, registered
ids are pairwise distinct, and the ids announced by the `add` emissions — one
per handle ever constructed — are pairwise distinct, i.e. an id is never
reused within a process lifetime. -/
theorem c2_path_unique_id_never_reused (isWindows : Bool)
    (events : List AdapterEvent) :
    ((run isWindows events).knownSigners.map (fun s => s.devicePath)).Nodup ∧
    ((run isWindows events).knownSigners.map (fun s => s.id)).Nodup ∧
    (addIds (run isWindows events).events).Nodup := by
  obtain ⟨h1, h2, -, h4, -⟩ := registryInv_run isWindows events
  exact ⟨h1, h2, h4⟩

/-- Claim C9, counterexample.  Two devices of the same model (7) attach as
`/dev/A` and `/dev/B`, then both detach.  Both detach events resolve (first
match by model among absent paths) to the handle at `/dev/A`, so two pending
disconnections with the same `devicePath` are live simultaneously. -/
theorem c9_counterexample :
    (handleDetachedDevice false [] 7
        (handleDetachedDevice false [] 7
          (handleAttachedDevice ⟨Derivation.standard, 0⟩ ["/dev/A", "/dev/B"] 7
            (handleAttachedDevice ⟨Derivation.standard, 0⟩ ["/dev/A"] 7
              initState)))).disconnections.map (fun d => d.devicePath) =
      ["/dev/A", "/dev/A"] := by
  decide

end Frame
